import Mathlib

/-! scryfall-datafetcher: record filter and download pipeline.

A shallow embedding of `scryfall/cards.go`, `aws/s3.go` and `main.go`.

* Go strings are Lean `String`s; `==` on strings is exact equality.
* A Go slice is a Lean `List`; `append(s, x)` is `s ++ [x]`.
* A Go `error` value is an `Option String`: `none` is `nil`, `some e` is an
  error whose text is `e`.
* The outside world (HTTP, the JSON codec, the S3 client) is a record of
  functions, `Env`; every effectful function takes it as its first argument
  and returns how the call ended together with the network requests it made.
* `log.Println` and `log.Printf` only write to standard error and are left
  out; `log.Fatalf`, which ends the process, is kept as an outcome.
-/

set_option autoImplicit false

namespace Scryfall

/-! ## Data model (`scryfall/cards.go`, lines 10-27) -/

/-- A downloadable dataset of the bulk index: its type label (the field
`Type` of the source, a reserved word here) and its URI. -/
structure BulkEntry where
  Type_ : String
  Url : String
  deriving DecidableEq, Repr

/-- The bulk index: the entries of the `data` field, in the order received. -/
structure BulkData where
  Data : List BulkEntry
  deriving DecidableEq, Repr

/-- The anonymous struct of `Card.Images`. -/
structure CardImages where
  ArtCrop : String
  deriving DecidableEq, Repr

/-- One catalog record. -/
structure Card where
  Name : String
  Images : CardImages
  Set : String
  FlavourText : String
  Artist : String
  deriving DecidableEq, Repr

/-! ## Record filter (`scryfall/cards.go`, lines 29-54) -/

/-- The method `(c *Card) isInvalid()`: the `switch` on `c.Set`, then the
comparison with `"Unknown Event"`, then the three emptiness tests. -/
def Card.isInvalid (c : Card) : Bool :=
  match c.Set with
  | "Unglued" => true
  | "Unhinged" => true
  | "Unstable" => true
  | "Unsanctioned" => true
  | "Unfinity" => true
  | _ =>
    if c.Set = "Unknown Event" then
      true
    else if c.FlavourText = "" || c.Images.ArtCrop = "" || c.Artist = "" then
      true
    else
      false

/-- The `for _, card := range cards` loop of `filterCards`: the first argument
is the slice `filtered` built so far, the second the cards still to visit. -/
def filterCards.loop : List Card → List Card → List Card
  | filtered, [] => filtered
  | filtered, card :: rest =>
    if card.isInvalid then
      filterCards.loop filtered rest
    else
      filterCards.loop (filtered ++ [card]) rest

/-- The function `filterCards`: `filtered` starts as `make([]Card, 0)`. -/
def filterCards (cards : List Card) : List Card :=
  filterCards.loop [] cards

/-! ## The outside world -/

/-- A byte slice, `[]byte`. -/
abbrev Bytes := List Nat

/-- What the program reaches outside itself, fixed for one run.

* `httpGet url` is `http.Get(url)` followed by `io.ReadAll(raw.Body)`:
  `.error e` when `http.Get` returns the error `e`; otherwise `.ok (data, err)`
  with the two results of `io.ReadAll` (the bytes read, and the read error).
* `unmarshalBulk` and `unmarshalCards` are `json.Unmarshal` into a `BulkData`
  and into a `[]Card`.
* `marshalCards` is `json.Marshal` of a `[]Card`.
* `putObject bucket key body` is `client.PutObject`, giving its error. -/
structure Env where
  httpGet : String → Except String (Bytes × Option String)
  unmarshalBulk : Bytes → Except String BulkData
  unmarshalCards : Bytes → Except String (List Card)
  marshalCards : List Card → Except String Bytes
  putObject : String → String → Bytes → Option String

/-- A request sent over the network during a run. -/
inductive Event where
  | get (url : String)
  | put (bucket key : String) (body : Bytes)
  deriving DecidableEq, Repr

/-- How a call ends: it returns a value, or `log.Fatalf` prints `msg` and
exits the process with status 1, or the Go runtime panics with `msg`. -/
inductive Outcome (α : Type) where
  | returned (a : α)
  | fatal (msg : String)
  | panicked (msg : String)
  deriving DecidableEq, Repr

/-- Whether the call returned to its caller. -/
def Outcome.isReturned {α : Type} : Outcome α → Bool
  | .returned _ => true
  | .fatal _ => false
  | .panicked _ => false

/-- The `put` requests of a trace: the publish attempts. -/
def publishes (trace : List Event) : List Event :=
  trace.filter fun e =>
    match e with
    | .put _ _ _ => true
    | .get _ => false

/-- The text of the runtime panic of `s[i]` on a slice of length `len`. -/
def indexOutOfRange (i len : Nat) : String :=
  "runtime error: index out of range [" ++ toString i ++ "] with length " ++ toString len

/-- Slice indexing `s[i]`, with the bounds check of the Go runtime. -/
def sliceIndex {α : Type} (s : List α) (i : Nat) : Outcome α :=
  match s.get? i with
  | some a => .returned a
  | none => .panicked (indexOutOfRange i s.length)

/-! ## Download pipeline (`scryfall/cards.go`, lines 56-113) -/

/-- The constant `URL`. -/
def URL : String := "https://api.scryfall.com/bulk-data"

/-- The function `downloadData`: fatal when `http.Get` fails, otherwise the
two results of `io.ReadAll`. -/
def downloadData (env : Env) (url : String) :
    Outcome (Bytes × Option String) × List Event :=
  match env.httpGet url with
  | .error err =>
    (.fatal ("unable to download data from " ++ url ++ ": " ++ err ++ "\n"), [.get url])
  | .ok read => (.returned read, [.get url])

/-- The function `downloadBulkData`: the `err` of `downloadData` is
overwritten by that of `json.Unmarshal` before it is looked at. -/
def downloadBulkData (env : Env) : Outcome BulkData × List Event :=
  match downloadData env URL with
  | (.returned (data, _), t) =>
    match env.unmarshalBulk data with
    | .error err => (.fatal ("unable to decode bulk data response: " ++ err ++ "\n"), t)
    | .ok bulk => (.returned bulk, t)
  | (.fatal msg, t) => (.fatal msg, t)
  | (.panicked msg, t) => (.panicked msg, t)

/-- The function `downloadCardData`. -/
def downloadCardData (env : Env) (entry : BulkEntry) : Outcome (List Card) × List Event :=
  match downloadData env entry.Url with
  | (.returned (_, some err), t) =>
    (.fatal ("unable to download card data from " ++ entry.Url ++ ": " ++ err ++ "\n"), t)
  | (.returned (data, none), t) =>
    match env.unmarshalCards data with
    | .error err => (.fatal ("unable to deserialize card list: " ++ err ++ "\n"), t)
    | .ok cards => (.returned (filterCards cards), t)
  | (.fatal msg, t) => (.fatal msg, t)
  | (.panicked msg, t) => (.panicked msg, t)

/-- The function `Download`: `oracle := downloadBulkData().Data[0]`, then
`downloadCardData(oracle)`. -/
def Download (env : Env) : Outcome (List Card) × List Event :=
  match downloadBulkData env with
  | (.returned bulk, t) =>
    match sliceIndex bulk.Data 0 with
    | .returned oracle =>
      match downloadCardData env oracle with
      | (out, t2) => (out, t ++ t2)
    | .fatal msg => (.fatal msg, t)
    | .panicked msg => (.panicked msg, t)
  | (.fatal msg, t) => (.fatal msg, t)
  | (.panicked msg, t) => (.panicked msg, t)

/-! ## Publish step (`aws/s3.go`) and entry point (`main.go`) -/

/-- The constant `BUCKET`. -/
def BUCKET : String := "muspelheim"

/-- The constant `OBJECT`. -/
def OBJECT : String := "scryfall-oracle-cards.json"

/-- The function `UploadCardInfo`: the returned value is the `error` result. -/
def UploadCardInfo (env : Env) (cards : List Card) : Outcome (Option String) × List Event :=
  match env.marshalCards cards with
  | .error err => (.fatal ("error marshalling card data: " ++ err ++ "\n"), [])
  | .ok raw =>
    match env.putObject BUCKET OBJECT raw with
    | some err => (.returned (some err), [.put BUCKET OBJECT raw])
    | none => (.returned none, [.put BUCKET OBJECT raw])

/-- The function `HandleRequest`; `ctx` and `event` are never read. -/
def HandleRequest (env : Env) (_event : Bytes) : Outcome (Option String) × List Event :=
  match Download env with
  | (.returned cards, t) =>
    match UploadCardInfo env cards with
    | (err, t2) => (err, t ++ t2)
  | (.fatal msg, t) => (.fatal msg, t)
  | (.panicked msg, t) => (.panicked msg, t)

/-! ## Concrete runs used as examples -/

/-- A codec and network for the examples: the index endpoint serves the bytes
`[1]`, the URI `"X"` serves `dataset`; `[1]` decodes to the index `index`, `[2]`
to the cards `cards`, and `[3]` is not valid JSON for either; cards are encoded
as `[4, n]` with `n` their number, and the object store answers `putErr`. -/
def exampleEnv (index : List BulkEntry) (dataset : Bytes) (cards : List Card)
    (putErr : Option String) : Env where
  httpGet := fun url =>
    if url = URL then .ok ([1], none)
    else if url = "X" then .ok (dataset, none)
    else .error "no such host"
  unmarshalBulk := fun data =>
    if data = [1] then .ok ⟨index⟩ else .error "invalid character"
  unmarshalCards := fun data =>
    if data = [2] then .ok cards else .error "invalid character"
  marshalCards := fun cs => .ok [4, cs.length]
  putObject := fun _ _ _ => putErr

/-- The index of scenario 1: one entry, of type `oracle_cards`, at `"X"`. -/
def oracleIndex : List BulkEntry := [⟨"oracle_cards", "X"⟩]

/-- The record of scenario 1: excluded by its set name. -/
def cardA : Card := ⟨"A", ⟨"u"⟩, "Unglued", "t", "a"⟩

/-- The record of scenario 2: excluded by its empty flavour text. -/
def cardB : Card := ⟨"B", ⟨"u"⟩, "Alpha", "", "a"⟩

/-- The record of scenario 3: kept. -/
def cardC : Card := ⟨"C", ⟨"u"⟩, "Alpha", "t", "a"⟩

/-! ## Facts about the filter shared by the theorems below -/

theorem filterCards.loop_eq (filtered cards : List Card) :
    filterCards.loop filtered cards
      = filtered ++ cards.filter (fun c => !c.isInvalid) := by
  induction cards generalizing filtered with
  | nil => simp [filterCards.loop]
  | cons card rest ih =>
    by_cases h : card.isInvalid = true
    · simp [filterCards.loop, h, ih]
    · simp [filterCards.loop, h, ih]

theorem filterCards_eq_filter (cards : List Card) :
    filterCards cards = cards.filter (fun c => !c.isInvalid) := by
  simp [filterCards, filterCards.loop_eq]

/-- The set names of the `switch` in `isInvalid`. -/
theorem Card.isInvalid_iff (c : Card) :
    c.isInvalid = true ↔
      (c.Set ∈ ["Unglued", "Unhinged", "Unstable", "Unsanctioned", "Unfinity"]
        ∨ c.Set = "Unknown Event"
        ∨ c.FlavourText = "" ∨ c.Images.ArtCrop = "" ∨ c.Artist = "") := by
  unfold Card.isInvalid
  split <;> simp_all [or_assoc]

/-- The only request of `downloadData` is the `GET` of its argument. -/
theorem downloadData_trace (env : Env) (url : String) :
    (downloadData env url).2 = [.get url] := by
  unfold downloadData
  split <;> rfl

/-- The function `downloadData` ends in `log.Fatalf` or returns; it never panics. -/
theorem downloadData_cases (env : Env) (url : String) :
    (∃ err, env.httpGet url = .error err ∧
      downloadData env url
        = (.fatal ("unable to download data from " ++ url ++ ": " ++ err ++ "\n"), [.get url]))
    ∨ (∃ read, env.httpGet url = .ok read ∧
      downloadData env url = (.returned read, [.get url])) := by
  unfold downloadData
  cases h : env.httpGet url with
  | error err => exact Or.inl ⟨err, rfl, rfl⟩
  | ok read => exact Or.inr ⟨read, rfl, rfl⟩

/-- The only request of `downloadCardData` is the `GET` of the entry's URI. -/
theorem downloadCardData_trace (env : Env) (entry : BulkEntry) :
    (downloadCardData env entry).2 = [.get entry.Url] := by
  unfold downloadCardData
  rcases downloadData_cases env entry.Url with ⟨err, _, h⟩ | ⟨⟨data, rerr⟩, _, h⟩
  · rw [h]
  · rw [h]
    cases rerr with
    | some e => rfl
    | none =>
      simp only
      cases env.unmarshalCards data <;> rfl

/-- The only request of `downloadBulkData` is the `GET` of the index endpoint. -/
theorem downloadBulkData_trace (env : Env) :
    (downloadBulkData env).2 = [.get URL] := by
  unfold downloadBulkData
  rcases downloadData_cases env URL with ⟨err, _, h⟩ | ⟨⟨data, rerr⟩, _, h⟩
  · rw [h]
  · rw [h]
    simp only
    cases env.unmarshalBulk data <;> rfl

/-- Index step, success path: the read error of the index body plays no part. -/
theorem downloadBulkData_ok (env : Env) (data : Bytes) (rerr : Option String)
    (bulk : BulkData) (hget : env.httpGet URL = .ok (data, rerr))
    (hdec : env.unmarshalBulk data = .ok bulk) :
    downloadBulkData env = (.returned bulk, [.get URL]) := by
  simp [downloadBulkData, downloadData, hget, hdec]

/-- The requests of `Download` are the `GET` of the index endpoint and at
most one more `GET`; none is a publish request. -/
theorem Download_publishes (env : Env) : publishes (Download env).2 = [] := by
  have hb := downloadBulkData_trace env
  unfold Download
  rcases hd : downloadBulkData env with ⟨out, t⟩
  rw [hd] at hb
  simp only at hb
  subst hb
  cases out with
  | returned bulk =>
    simp only
    cases hs : sliceIndex bulk.Data 0 with
    | returned oracle =>
      simp only
      rw [downloadCardData_trace env oracle]
      rfl
    | fatal msg => rfl
    | panicked msg => rfl
  | fatal msg => rfl
  | panicked msg => rfl

/-- When `Download` does not return, `HandleRequest` ends the same way, with
the same requests made. -/
theorem HandleRequest_of_Download_failed (env : Env) (event : Bytes)
    (h : (Download env).1.isReturned = false) :
    ((∃ msg, (Download env).1 = .fatal msg ∧ (HandleRequest env event).1 = .fatal msg)
      ∨ (∃ msg, (Download env).1 = .panicked msg
          ∧ (HandleRequest env event).1 = .panicked msg))
    ∧ (HandleRequest env event).2 = (Download env).2 := by
  unfold HandleRequest
  rcases hd : Download env with ⟨out, t⟩
  rw [hd] at h
  cases out with
  | returned cards => simp [Outcome.isReturned] at h
  | fatal msg => simp
  | panicked msg => simp

/-- Success path of `Download`: both payloads arrive and decode, and the
index has a first entry. -/
theorem Download_ok (env : Env) (data : Bytes) (rerr : Option String) (bulk : BulkData)
    (entry : BulkEntry) (rest : List BulkEntry) (body : Bytes) (cards : List Card)
    (hget : env.httpGet URL = .ok (data, rerr)) (hdec : env.unmarshalBulk data = .ok bulk)
    (hdata : bulk.Data = entry :: rest)
    (hget2 : env.httpGet entry.Url = .ok (body, none))
    (hdec2 : env.unmarshalCards body = .ok cards) :
    Download env = (.returned (filterCards cards), [.get URL, .get entry.Url]) := by
  simp [Download, downloadBulkData_ok env data rerr bulk hget hdec, hdata, sliceIndex,
    downloadCardData, downloadData, hget2, hdec2]

/-! ## The record filter -/

/-- C1: a card is invalid exactly when its set is one of the five excluded
names, or is the sentinel `"Unknown Event"`, or its flavour text, art crop or
artist is empty. The comparison is exact: a card whose set is `"unglued"` or
`"unknown event"` is invalid only through an empty field, so with the three
fields non-empty it is kept. -/
theorem Card.isInvalid_exact (c : Card) :
    (c.isInvalid = true ↔
      (c.Set ∈ ["Unglued", "Unhinged", "Unstable", "Unsanctioned", "Unfinity"]
        ∨ c.Set = "Unknown Event"
        ∨ c.FlavourText = "" ∨ c.Images.ArtCrop = "" ∨ c.Artist = ""))
    ∧ (Card.isInvalid { c with Set := "unglued" } = true ↔
        (c.FlavourText = "" ∨ c.Images.ArtCrop = "" ∨ c.Artist = ""))
    ∧ (Card.isInvalid { c with Set := "unknown event" } = true ↔
        (c.FlavourText = "" ∨ c.Images.ArtCrop = "" ∨ c.Artist = "")) := by
  refine ⟨Card.isInvalid_iff c, ?_, ?_⟩
  · rw [Card.isInvalid_iff]
    simp
  · rw [Card.isInvalid_iff]
    simp

/-- C2: the output of `filterCards` is a subsequence of its input: the cards
kept stand in the order they had, and each comes from the input. -/
theorem filterCards_sublist (cs : List Card) : List.Sublist (filterCards cs) cs := by
  rw [filterCards_eq_filter]
  exact List.filter_sublist cs

/-- C3: filtering a filtered list changes nothing. -/
theorem filterCards_idempotent (cs : List Card) :
    filterCards (filterCards cs) = filterCards cs := by
  simp [filterCards_eq_filter]

/-- C8: a list none of whose cards is invalid is returned as it is. -/
theorem filterCards_of_all_valid (cs : List Card)
    (h : ∀ c ∈ cs, c.isInvalid = false) : filterCards cs = cs := by
  rw [filterCards_eq_filter, List.filter_eq_self]
  intro c hc
  simp [h c hc]

/-- Witness of C8: the single record of scenario 3. -/
theorem filterCards_of_all_valid_witness :
    (∀ c ∈ [cardC], c.isInvalid = false) ∧ filterCards [cardC] = [cardC] :=
  ⟨by decide, filterCards_of_all_valid [cardC] (by decide)⟩

/-- C10: a card occurs in the output of `filterCards` no times when it is
invalid and as often as in the input otherwise; every card of the output is
valid, with non-empty flavour text, art crop and artist and a set that is
neither excluded nor the sentinel. -/
theorem filterCards_count (cs : List Card) (r : Card) :
    List.count r (filterCards cs) = (if r.isInvalid then 0 else List.count r cs)
    ∧ (r ∈ filterCards cs ↔ r ∈ cs ∧ r.isInvalid = false)
    ∧ (∀ c ∈ filterCards cs,
        c.isInvalid = false ∧ c.FlavourText ≠ "" ∧ c.Images.ArtCrop ≠ "" ∧ c.Artist ≠ ""
          ∧ c.Set ∉ ["Unglued", "Unhinged", "Unstable", "Unsanctioned", "Unfinity"]
          ∧ c.Set ≠ "Unknown Event") := by
  rw [filterCards_eq_filter]
  refine ⟨?_, ?_, ?_⟩
  · by_cases hr : r.isInvalid = true
    · rw [if_pos hr]
      apply List.count_eq_zero_of_not_mem
      intro hmem
      have := (List.mem_filter.mp hmem).2
      simp [hr] at this
    · rw [if_neg hr]
      apply List.count_filter
      simpa using hr
  · simp [List.mem_filter]
  · intro c hc
    have hv : ¬ c.isInvalid = true := by
      have := (List.mem_filter.mp hc).2
      simpa using this
    have hn := mt (Card.isInvalid_iff c).mpr hv
    simp only [not_or] at hn
    exact ⟨by simpa using hv, hn.2.2.1, hn.2.2.2.1, hn.2.2.2.2, hn.1, hn.2.1⟩

/-! ## Dataset selection -/

/-- C4, as the code has it: once the index is decoded, the selection `Data[0]`
of `Download` is unchecked: when the index has no entry it ends in the
index-out-of-range panic of the Go runtime (there is no length check and no
error value), and otherwise it yields the entry at position 0, whatever its
type label: the dataset is fetched from that entry's URI. -/
theorem Download_selects_first (env : Env) (bulk : BulkData) (t : List Event)
    (h : downloadBulkData env = (.returned bulk, t)) :
    (sliceIndex bulk.Data 0 =
      match bulk.Data with
      | [] => .panicked (indexOutOfRange 0 0)
      | entry :: _ => .returned entry)
    ∧ Download env =
      match bulk.Data with
      | [] => (.panicked (indexOutOfRange 0 0), t)
      | entry :: _ => ((downloadCardData env entry).1, t ++ [.get entry.Url]) := by
  unfold Download
  rw [h]
  cases hdata : bulk.Data with
  | nil => simp [sliceIndex, hdata]
  | cons entry rest => simp [sliceIndex, hdata, downloadCardData_trace]

/-- Witness of C4: an empty index, and an index whose first entry is not the
one labelled `oracle_cards`. -/
theorem Download_selects_first_witness :
    downloadBulkData (exampleEnv [] [2] [cardC] none) = (.returned ⟨[]⟩, [.get URL])
    ∧ Download (exampleEnv [] [2] [cardC] none)
        = (.panicked (indexOutOfRange 0 0), [.get URL])
    ∧ downloadBulkData (exampleEnv [⟨"rulings", "X"⟩, ⟨"oracle_cards", "Y"⟩] [2] [cardC] none)
        = (.returned ⟨[⟨"rulings", "X"⟩, ⟨"oracle_cards", "Y"⟩]⟩, [.get URL])
    ∧ Download (exampleEnv [⟨"rulings", "X"⟩, ⟨"oracle_cards", "Y"⟩] [2] [cardC] none)
        = (.returned [cardC], [.get URL, .get "X"]) :=
  ⟨by decide,
   (Download_selects_first (exampleEnv [] [2] [cardC] none) ⟨[]⟩ [.get URL] (by decide)).2,
   by decide,
   (Download_selects_first (exampleEnv [⟨"rulings", "X"⟩, ⟨"oracle_cards", "Y"⟩] [2] [cardC] none)
      ⟨[⟨"rulings", "X"⟩, ⟨"oracle_cards", "Y"⟩]⟩ [.get URL] (by decide)).2⟩

/-- C4 as stated fails: on a decoded index with no entry the selection does
not fail with an error of the program. The run of `Download` neither returns
nor ends in `log.Fatalf`, the one way the program reports a failure: it ends
in the runtime panic of the unchecked `Data[0]`. -/
theorem emptyIndex_selection_panics :
    downloadBulkData (exampleEnv [] [2] [cardC] none) = (.returned ⟨[]⟩, [.get URL])
    ∧ sliceIndex (BulkData.mk []).Data 0
        = .panicked "runtime error: index out of range [0] with length 0"
    ∧ (Download (exampleEnv [] [2] [cardC] none)).1
        = .panicked "runtime error: index out of range [0] with length 0"
    ∧ (Download (exampleEnv [] [2] [cardC] none)).1.isReturned = false
    ∧ ¬ ∃ msg, (Download (exampleEnv [] [2] [cardC] none)).1 = .fatal msg := by
  refine ⟨by decide, by decide, by decide, by decide, ?_⟩
  rintro ⟨msg, h⟩
  have hp : (Download (exampleEnv [] [2] [cardC] none)).1
      = .panicked "runtime error: index out of range [0] with length 0" := by decide
  rw [hp] at h
  cases h

/-- C9: when both payloads arrive and decode and every decoded card is
invalid, `Download` returns the empty list. -/
theorem Download_all_excluded (env : Env) (data : Bytes) (bulk : BulkData)
    (entry : BulkEntry) (rest : List BulkEntry) (body : Bytes) (cards : List Card)
    (hget : env.httpGet URL = .ok (data, none)) (hdec : env.unmarshalBulk data = .ok bulk)
    (hdata : bulk.Data = entry :: rest)
    (hget2 : env.httpGet entry.Url = .ok (body, none))
    (hdec2 : env.unmarshalCards body = .ok cards)
    (hall : ∀ c ∈ cards, c.isInvalid = true) :
    Download env = (.returned [], [.get URL, .get entry.Url]) := by
  rw [Download_ok env data none bulk entry rest body cards hget hdec hdata hget2 hdec2,
    filterCards_eq_filter]
  have hnil : cards.filter (fun c => !c.isInvalid) = [] := by
    rw [List.filter_eq_nil_iff]
    intro c hc
    simp [hall c hc]
  rw [hnil]

/-- Witness of C9: scenario 1 (set `Unglued`) and scenario 2 (empty flavour
text). -/
theorem Download_all_excluded_witness :
    Download (exampleEnv oracleIndex [2] [cardA] none) = (.returned [], [.get URL, .get "X"])
    ∧ Download (exampleEnv oracleIndex [2] [cardB] none)
        = (.returned [], [.get URL, .get "X"]) :=
  ⟨Download_all_excluded (exampleEnv oracleIndex [2] [cardA] none) [1] ⟨oracleIndex⟩
      ⟨"oracle_cards", "X"⟩ [] [2] [cardA] rfl rfl rfl rfl rfl (by decide),
   Download_all_excluded (exampleEnv oracleIndex [2] [cardB] none) [1] ⟨oracleIndex⟩
      ⟨"oracle_cards", "X"⟩ [] [2] [cardB] rfl rfl rfl rfl rfl (by decide)⟩

/-! ## The entry point -/

/-- C5, as the code has it: when the index arrives and decodes to an index
with no entry, `HandleRequest` does not return: the run ends in the
index-out-of-range panic of `Data[0]`, after the one `GET` of the index, and
no publish request is made. -/
theorem HandleRequest_emptyIndex (env : Env) (event : Bytes) (data : Bytes)
    (bulk : BulkData) (hget : env.httpGet URL = .ok (data, none))
    (hdec : env.unmarshalBulk data = .ok bulk) (hdata : bulk.Data = []) :
    HandleRequest env event = (.panicked (indexOutOfRange 0 0), [.get URL])
    ∧ (HandleRequest env event).1.isReturned = false
    ∧ publishes (HandleRequest env event).2 = [] := by
  have h : HandleRequest env event = (.panicked (indexOutOfRange 0 0), [.get URL]) := by
    simp [HandleRequest, Download, downloadBulkData_ok env data none bulk hget hdec, hdata,
      sliceIndex]
  rw [h]
  exact ⟨rfl, rfl, rfl⟩

/-- Witness of C5 as amended: the example run with an empty index. -/
theorem HandleRequest_emptyIndex_witness :
    HandleRequest (exampleEnv [] [2] [cardC] none) []
      = (.panicked (indexOutOfRange 0 0), [.get URL])
    ∧ (HandleRequest (exampleEnv [] [2] [cardC] none) []).1.isReturned = false
    ∧ publishes (HandleRequest (exampleEnv [] [2] [cardC] none) []).2 = [] :=
  HandleRequest_emptyIndex (exampleEnv [] [2] [cardC] none) [] [1] ⟨[]⟩ rfl rfl rfl

/-- C5 as stated fails: the index arrives and decodes to an index with no
entry, and `HandleRequest` returns no error value, it panics. -/
theorem emptyIndex_run_returns_no_error :
    (exampleEnv [] [2] [cardC] none).httpGet URL = .ok ([1], none)
    ∧ (exampleEnv [] [2] [cardC] none).unmarshalBulk [1] = .ok ⟨[]⟩
    ∧ (HandleRequest (exampleEnv [] [2] [cardC] none) []).1
        = .panicked "runtime error: index out of range [0] with length 0"
    ∧ ¬ ∃ err, (HandleRequest (exampleEnv [] [2] [cardC] none) []).1 = .returned (some err) := by
  refine ⟨rfl, rfl, by decide, ?_⟩
  rintro ⟨err, h⟩
  have hp : (HandleRequest (exampleEnv [] [2] [cardC] none) []).1
      = .panicked "runtime error: index out of range [0] with length 0" := by decide
  rw [hp] at h
  cases h

/-- C7: when `Download` returns a catalog, `HandleRequest` ends as
`UploadCardInfo` does on that very catalog, its requests following those of
`Download`; once the catalog is encoded, `HandleRequest` returns what the
object-store write answered (`nil` on success, the error of the write
otherwise) and the one publish request carries the encoding of that catalog. -/
theorem HandleRequest_publish_result (env : Env) (event : Bytes) (cards : List Card)
    (t : List Event) (hd : Download env = (.returned cards, t)) :
    HandleRequest env event = ((UploadCardInfo env cards).1, t ++ (UploadCardInfo env cards).2)
    ∧ (∀ raw, env.marshalCards cards = .ok raw →
        HandleRequest env event
          = (.returned (env.putObject BUCKET OBJECT raw), t ++ [.put BUCKET OBJECT raw])
        ∧ publishes (HandleRequest env event).2 = [.put BUCKET OBJECT raw]) := by
  have h : HandleRequest env event
      = ((UploadCardInfo env cards).1, t ++ (UploadCardInfo env cards).2) := by
    unfold HandleRequest
    rw [hd]
  refine ⟨h, ?_⟩
  intro raw hm
  have hu : UploadCardInfo env cards
      = (.returned (env.putObject BUCKET OBJECT raw), [.put BUCKET OBJECT raw]) := by
    unfold UploadCardInfo
    rw [hm]
    simp only
    cases env.putObject BUCKET OBJECT raw <;> rfl
  have hp : publishes t = [] := by
    have := Download_publishes env
    rw [hd] at this
    exact this
  rw [h, hu]
  refine ⟨rfl, ?_⟩
  simp only [publishes, List.filter_append] at hp ⊢
  rw [hp]
  rfl

/-- Witness of C7: the catalog `[cardC]` published with success, and with the
write refused. -/
theorem HandleRequest_publish_result_witness :
    Download (exampleEnv oracleIndex [2] [cardA, cardC, cardB] none)
      = (.returned [cardC], [.get URL, .get "X"])
    ∧ HandleRequest (exampleEnv oracleIndex [2] [cardA, cardC, cardB] none) []
      = (.returned none, [.get URL, .get "X", .put BUCKET OBJECT [4, 1]])
    ∧ HandleRequest (exampleEnv oracleIndex [2] [cardA, cardC, cardB] (some "AccessDenied")) []
      = (.returned (some "AccessDenied"), [.get URL, .get "X", .put BUCKET OBJECT [4, 1]]) :=
  ⟨by decide,
   ((HandleRequest_publish_result (exampleEnv oracleIndex [2] [cardA, cardC, cardB] none) []
      [cardC] [.get URL, .get "X"] (by decide)).2 [4, 1] rfl).1,
   ((HandleRequest_publish_result
      (exampleEnv oracleIndex [2] [cardA, cardC, cardB] (some "AccessDenied")) []
      [cardC] [.get URL, .get "X"] (by decide)).2 [4, 1] rfl).1⟩

/-- C6, as the code has it. When the index arrives and decodes but the dataset
payload does not decode, `log.Fatalf` ends the process in `downloadCardData`:
`Download` produces no catalog, `HandleRequest` returns nothing and makes no
publish request. The same holds
when a fetch fails in transport, when the index payload does not decode
(whatever the reading of its body reported), and when reading the dataset
body fails; and whenever `Download` ends without
returning, `HandleRequest` ends the same way, with no publish request. -/
theorem HandleRequest_aborts (env : Env) (event : Bytes) :
    (∀ err, env.httpGet URL = .error err →
      HandleRequest env event
        = (.fatal ("unable to download data from " ++ URL ++ ": " ++ err ++ "\n"),
            [.get URL]))
    ∧ (∀ data rerr err, env.httpGet URL = .ok (data, rerr) →
        env.unmarshalBulk data = .error err →
      HandleRequest env event
        = (.fatal ("unable to decode bulk data response: " ++ err ++ "\n"), [.get URL]))
    ∧ (∀ data bulk entry rest, env.httpGet URL = .ok (data, none) →
        env.unmarshalBulk data = .ok bulk → bulk.Data = entry :: rest →
        (∀ err, env.httpGet entry.Url = .error err →
          HandleRequest env event
            = (.fatal ("unable to download data from " ++ entry.Url ++ ": " ++ err ++ "\n"),
                [.get URL, .get entry.Url]))
        ∧ (∀ body err, env.httpGet entry.Url = .ok (body, some err) →
          HandleRequest env event
            = (.fatal ("unable to download card data from " ++ entry.Url ++ ": " ++ err
                  ++ "\n"),
                [.get URL, .get entry.Url]))
        ∧ (∀ body err, env.httpGet entry.Url = .ok (body, none) →
          env.unmarshalCards body = .error err →
          Download env
            = (.fatal ("unable to deserialize card list: " ++ err ++ "\n"),
                [.get URL, .get entry.Url])
          ∧ HandleRequest env event
            = (.fatal ("unable to deserialize card list: " ++ err ++ "\n"),
                [.get URL, .get entry.Url])))
    ∧ ((Download env).1.isReturned = false →
        (HandleRequest env event).1.isReturned = false
        ∧ publishes (HandleRequest env event).2 = []) := by
  refine ⟨?_, ?_, ?_, ?_⟩
  · intro err hget
    simp [HandleRequest, Download, downloadBulkData, downloadData, hget]
  · intro data rerr err hget hdec
    simp [HandleRequest, Download, downloadBulkData, downloadData, hget, hdec]
  · intro data bulk entry rest hget hdec hdata
    have hb := downloadBulkData_ok env data none bulk hget hdec
    refine ⟨?_, ?_, ?_⟩
    · intro err hget2
      simp [HandleRequest, Download, hb, hdata, sliceIndex, downloadCardData, downloadData,
        hget2]
    · intro body err hget2
      simp [HandleRequest, Download, hb, hdata, sliceIndex, downloadCardData, downloadData,
        hget2]
    · intro body err hget2 hdec2
      simp [HandleRequest, Download, hb, hdata, sliceIndex, downloadCardData, downloadData,
        hget2, hdec2]
  · intro hfail
    obtain ⟨hout, htrace⟩ := HandleRequest_of_Download_failed env event hfail
    refine ⟨?_, ?_⟩
    · rcases hout with ⟨msg, _, h⟩ | ⟨msg, _, h⟩ <;> rw [h] <;> rfl
    · rw [htrace]
      exact Download_publishes env

/-- Witness of C6 as amended: the example run whose dataset payload, `[3]`,
does not decode. -/
theorem HandleRequest_aborts_witness :
    HandleRequest (exampleEnv oracleIndex [3] [cardC] none) []
      = (.fatal "unable to deserialize card list: invalid character\n",
          [.get URL, .get "X"])
    ∧ (HandleRequest (exampleEnv oracleIndex [3] [cardC] none) []).1.isReturned = false
    ∧ publishes (HandleRequest (exampleEnv oracleIndex [3] [cardC] none) []).2 = [] :=
  ⟨(((HandleRequest_aborts (exampleEnv oracleIndex [3] [cardC] none) []).2.2.1
      [1] ⟨oracleIndex⟩ ⟨"oracle_cards", "X"⟩ [] rfl rfl rfl).2.2 [3] "invalid character" rfl
      rfl).2,
   (HandleRequest_aborts (exampleEnv oracleIndex [3] [cardC] none) []).2.2.2 (by decide)⟩

/-- C6 as stated fails: the index arrives and decodes, the dataset payload
does not decode, and `HandleRequest` returns no error value: the process is
ended by `log.Fatalf`. -/
theorem undecodable_dataset_run_returns_no_error :
    (exampleEnv oracleIndex [3] [cardC] none).httpGet URL = .ok ([1], none)
    ∧ (exampleEnv oracleIndex [3] [cardC] none).unmarshalBulk [1] = .ok ⟨oracleIndex⟩
    ∧ (exampleEnv oracleIndex [3] [cardC] none).httpGet "X" = .ok ([3], none)
    ∧ (exampleEnv oracleIndex [3] [cardC] none).unmarshalCards [3] = .error "invalid character"
    ∧ (HandleRequest (exampleEnv oracleIndex [3] [cardC] none) []).1
        = .fatal "unable to deserialize card list: invalid character\n"
    ∧ ¬ ∃ err, (HandleRequest (exampleEnv oracleIndex [3] [cardC] none) []).1
        = .returned (some err) := by
  refine ⟨rfl, rfl, rfl, rfl, by decide, ?_⟩
  rintro ⟨err, h⟩
  have hp : (HandleRequest (exampleEnv oracleIndex [3] [cardC] none) []).1
      = .fatal "unable to deserialize card list: invalid character\n" := by decide
  rw [hp] at h
  cases h

end Scryfall
